import Mathlib

/-!
# Verification of `sleep_quality_predictor.py`

A shallow embedding of the bespoke logic of the sleep-quality predictor CLI:
the synthetic-data labeling rule, the categorical encoders, the input
normalizer (time parser, integer parser, duration calculator), the user-input
phase, the history log, the graph function and the main menu loop.

Python strings are modelled as `List Char` where character-level processing
happens and as `String` at the interface.  Python `float` values that the
program compares and stores (`sleep_duration`) are modelled as `ℚ`: every
value the program actually produces for them is a small integer, represented
exactly by both `float` and `ℚ`.  Python's `%` on integers (sign of the
divisor) is `Int.emod`, written `%` on `Int` in Lean.
-/

namespace SleepPredictor

/-! ## Python string primitives -/

/-- `str.strip()`: remove leading and trailing whitespace. -/
def pyStrip (s : List Char) : List Char :=
  ((s.dropWhile Char.isWhitespace).reverse.dropWhile Char.isWhitespace).reverse

/-- `str.lower()` (ASCII fragment, which is all this program meets). -/
def pyLower (s : List Char) : List Char :=
  s.map Char.toLower

/-- Python's `needle in haystack` substring test. -/
def hasSub (needle : List Char) : List Char → Bool
  | [] => needle.isEmpty
  | c :: rest => needle.isPrefixOf (c :: rest) || hasSub needle rest

/-- Value of a list of decimal digit characters, most significant first. -/
def digitsToNat (ds : List Char) : Nat :=
  ds.foldl (fun acc c => acc * 10 + (c.toNat - 48)) 0

/-- Python `int(text)` on already-stripped text: optional sign, then a
nonempty run of decimal digits.  (PEP 515 underscore grouping is not
modelled; no claim involves it.) -/
def pyIntCore (v : List Char) : Option Int :=
  match v with
  | '-' :: ds =>
    if ds ≠ [] ∧ ds.all Char.isDigit then some (-(digitsToNat ds : Int)) else none
  | '+' :: ds =>
    if ds ≠ [] ∧ ds.all Char.isDigit then some (digitsToNat ds : Int) else none
  | ds =>
    if ds ≠ [] ∧ ds.all Char.isDigit then some (digitsToNat ds : Int) else none

/-- Python `int(text)`: `int` itself tolerates surrounding whitespace. -/
def pyInt (v : List Char) : Option Int :=
  pyIntCore (pyStrip v)

/-! ## `parse_time` (lines 68-82)

One attempt of the loop body: `none` means the attempt failed and the loop
re-prompts.  `datetime.strptime` is modelled by its documented regexes:
`%I` is `1[0-2]|0[1-9]|[1-9]` (equivalently 1-2 digits with value 1..12),
`%p` is `am|pm` (input is already lowercased), `%H` is `2[0-3]|[0-1]\d|\d`
(1-2 digits with value 0..23), `%M` is `[0-5]\d|\d` (1-2 digits with value
0..59), and any unconverted trailing data raises `ValueError`. -/

/-- `datetime.strptime(value, "%I%p").hour` on a lowercased, space-free
string: 12-hour clock hour followed immediately by `am`/`pm`. -/
def strptimeIP (v : List Char) : Option Nat :=
  let ds := v.takeWhile Char.isDigit
  let rest := v.dropWhile Char.isDigit
  let h := digitsToNat ds
  if 1 ≤ ds.length ∧ ds.length ≤ 2 ∧ 1 ≤ h ∧ h ≤ 12 then
    if rest = ['a', 'm'] then some (if h = 12 then 0 else h)
    else if rest = ['p', 'm'] then some (if h = 12 then 12 else h + 12)
    else none
  else none

/-- `datetime.strptime(value, "%H:%M").hour`: 24-hour clock
`HH:MM`; the minutes are validated and then discarded. -/
def strptimeHM (v : List Char) : Option Nat :=
  let ds := v.takeWhile Char.isDigit
  match v.dropWhile Char.isDigit with
  | ':' :: r2 =>
    let ms := r2.takeWhile Char.isDigit
    if 1 ≤ ds.length ∧ ds.length ≤ 2 ∧ digitsToNat ds ≤ 23 ∧
       1 ≤ ms.length ∧ ms.length ≤ 2 ∧ digitsToNat ms ≤ 59 ∧
       r2.dropWhile Char.isDigit = [] then
      some (digitsToNat ds)
    else none
  | _ => none

/-- One attempt of `parse_time`'s loop body (lines 70-82):
strip and lowercase, then dispatch on `am`/`pm` substring, `:`, or a bare
integer checked against 0..23. -/
def parseTimeChars (s : List Char) : Option Nat :=
  let v := pyLower (pyStrip s)
  if hasSub ['a', 'm'] v || hasSub ['p', 'm'] v then
    strptimeIP (v.filter (fun c => c ≠ ' '))
  else if v.contains ':' then
    strptimeHM v
  else
    match pyInt v with
    | some n => if 0 ≤ n ∧ n ≤ 23 then some n.toNat else none
    | none => none

/-- `parse_time` on a `String` input attempt. -/
def parse_time (s : String) : Option Nat :=
  parseTimeChars s.data

/-- One attempt of `safe_int`'s loop body (lines 61-66). -/
def safe_int (s : String) : Option Int :=
  pyInt s.data

/-! ## `calculate_sleep_duration` (lines 84-89) -/

/-- `calculate_sleep_duration(bed, wake)`: `(wake - bed) % 24`, with the
fixed fallback `8.0` when the result is `0` or exceeds `14`. -/
def calculate_sleep_duration (bed wake : Int) : ℚ :=
  let duration := (wake - bed) % 24
  if duration = 0 ∨ duration > 14 then 8
  else (duration : ℚ)

/-! ## `label_sleep` (lines 30-35) -/

/-- One row of the (pre-encoding) training table: the nine generated
columns of lines 18-28. -/
structure FeatureRow where
  sleep_duration : ℚ
  bedtime : Int
  wake_time : Int
  caffeine : String
  exercise : Int
  screen_time : Int
  stress : Int
  mood : String
  interruptions : Int

/-- `label_sleep(row)` (lines 30-35). -/
def label_sleep (row : FeatureRow) : String :=
  if 7 ≤ row.sleep_duration ∧ row.screen_time < 60 ∧ row.stress ≤ 4 ∧
     row.interruptions = 0 then "Good"
  else if 6 ≤ row.sleep_duration then "Average"
  else "Poor"

/-! ## Categorical encoders (lines 42-46)

`sklearn.preprocessing.LabelEncoder.fit` stores `numpy.unique(column)`: the
distinct values of the column in lexicographic order.  `transform` maps a
value to its index in that sorted list, `inverse_transform` maps an index
back.  The training table draws `caffeine` from the four categories of
line 22, `mood` from the four of line 26, and `sleep_quality` is
`label_sleep` of each row, ranging over the three labels of lines 30-35;
with 700 rows drawn under `np.random.seed(42)` every category of each
column occurs, so the fitted vocabulary of each encoder is its full
category list. -/

/-- Lexicographic (code-point) order on character lists, the order
`numpy.unique` sorts strings by. -/
def charListLt : List Char → List Char → Bool
  | [], [] => false
  | [], _ :: _ => true
  | _ :: _, [] => false
  | a :: as, b :: bs => a < b || (a = b && charListLt as bs)

/-- Lexicographic `≤` on strings via `charListLt`. -/
def strLeb (s t : String) : Bool :=
  ! charListLt t.data s.data

/-- Insertion into a lexicographically sorted list of strings. -/
def insertStr (s : String) : List String → List String
  | [] => [s]
  | t :: ts => if strLeb s t then s :: t :: ts else t :: insertStr s ts

/-- Lexicographic insertion sort on strings. -/
def sortStr (l : List String) : List String :=
  l.foldr insertStr []

/-- `LabelEncoder.fit`: the sorted distinct values (`classes_`). -/
def leFitClasses (xs : List String) : List String :=
  sortStr xs.dedup

/-- `LabelEncoder.transform` on a single value: its index in `classes_`. -/
def leTransform (classes : List String) (s : String) : Nat :=
  classes.indexOf s

/-- `LabelEncoder.inverse_transform` on a single code; `none` models the
exception raised on a code outside the fitted range. -/
def leInverse (classes : List String) (i : Nat) : Option String :=
  classes.get? i

/-- The `caffeine` categories of line 22, in source order. -/
def caffeineCategories : List String := ["None", "Low", "Moderate", "High"]

/-- The `mood` categories of line 26, in source order. -/
def moodCategories : List String := ["Happy", "Neutral", "Sad", "Anxious"]

/-- The `sleep_quality` labels produced by `label_sleep`. -/
def qualityCategories : List String := ["Good", "Average", "Poor"]

/-- `encoders["caffeine"].classes_`. -/
def caffeineClasses : List String := leFitClasses caffeineCategories

/-- `encoders["mood"].classes_`. -/
def moodClasses : List String := leFitClasses moodCategories

/-- `encoders["sleep_quality"].classes_`. -/
def qualityClasses : List String := leFitClasses qualityCategories

/-! ## `user_input` (lines 96-142) -/

/-- The hardcoded prediction-time caffeine encoding of line 105. -/
def caffeine_map (s : String) : Option Nat :=
  if s = "none" then some 0
  else if s = "low" then some 1
  else if s = "moderate" then some 2
  else if s = "high" then some 3
  else none

/-- The hardcoded prediction-time mood encoding of line 122. -/
def mood_map (s : String) : Option Nat :=
  if s = "happy" then some 0
  else if s = "neutral" then some 1
  else if s = "sad" then some 2
  else if s = "anxious" then some 3
  else none

/-- A read-until-valid loop: feed script entries to the one-attempt parser
`p` until one succeeds, returning the value and the unread rest of the
script, or `none` if the script runs out first. -/
def runParser (p : String → Option α) : List String → Option (α × List String)
  | [] => none
  | s :: rest =>
    match p s with
    | some a => some (a, rest)
    | none => runParser p rest

/-- `str.lower()` at the `String` interface. -/
def pyLowerStr (s : String) : String :=
  ⟨pyLower s.data⟩

/-- One attempt of the caffeine loop (lines 106-111): lowercase, look up. -/
def caffeineAttempt (s : String) : Option Nat :=
  caffeine_map (pyLowerStr s)

/-- One attempt of the mood loop (lines 123-128). -/
def moodAttempt (s : String) : Option Nat :=
  mood_map (pyLowerStr s)

/-- Net effect of the stress loop (lines 116-120): an attempt succeeds
exactly when the entry parses as an integer in 1..10; every earlier entry
is consumed whether it failed `int()` or the range check. -/
def stressAttempt (s : String) : Option Int :=
  match safe_int s with
  | some n => if 1 ≤ n ∧ n ≤ 10 then some n else none
  | none => none

/-- The single-row `DataFrame` built at lines 132-142: the feature row
handed to `model.predict`, with `caffeine` and `mood` already encoded. -/
structure UserRow where
  sleep_duration : ℚ
  bedtime : Nat
  wake_time : Nat
  caffeine : Nat
  exercise : Int
  screen_time : Int
  stress : Int
  mood : Nat
  interruptions : Int
deriving DecidableEq

/-- `user_input()` (lines 96-142) over an input script: the row passed to
the classifier, the returned `sleep_duration`, and the unread script. -/
def user_input (script : List String) : Option (UserRow × ℚ × List String) :=
  (runParser parse_time script).bind fun bt =>
  (runParser parse_time bt.2).bind fun wt =>
  let dur := calculate_sleep_duration bt.1 wt.1
  (runParser caffeineAttempt wt.2).bind fun caf =>
  (runParser safe_int caf.2).bind fun ex =>
  (runParser safe_int ex.2).bind fun scr =>
  (runParser stressAttempt scr.2).bind fun st =>
  (runParser moodAttempt st.2).bind fun mo =>
  (runParser safe_int mo.2).map fun intr =>
  (⟨dur, bt.1, wt.1, caf.1, ex.1, scr.1, st.1, mo.1, intr.1⟩, dur, intr.2)

/-! ## History and `predict` (lines 94, 147-156) -/

/-- One element of the `history` list (lines 152-156). -/
structure HistoryEntry where
  day : Nat
  sleep_duration : ℚ
  sleep_quality : String
deriving DecidableEq

/-- The append performed by `predict` (lines 152-156) once the classifier
has produced `result` for a row of duration `duration`. -/
def predictAppend (h : List HistoryEntry) (duration : ℚ) (result : String) :
    List HistoryEntry :=
  h ++ [⟨h.length + 1, duration, result⟩]

/-- The history after a sequence of completed predictions, each given by
its duration and predicted label. -/
def runPredictions (ps : List (ℚ × String)) : List HistoryEntry :=
  ps.foldl (fun h p => predictAppend h p.1 p.2) []

/-! ## `show_sleep_graph` (lines 174-195) -/

/-- The `quality_map` dict of line 182; `none` models the `KeyError` on a
label outside the dict. -/
def quality_map (s : String) : Option Nat :=
  if s = "Poor" then some 1
  else if s = "Average" then some 2
  else if s = "Good" then some 3
  else none

/-- The list comprehension of line 183: each entry's quality label looked
up in `quality_map`; `none` models the `KeyError` crash on an unknown
label. -/
def lookupLevels : List HistoryEntry → Option (List Nat)
  | [] => some []
  | e :: t =>
    match quality_map e.sleep_quality, lookupLevels t with
    | some v, some vs => some (v :: vs)
    | _, _ => none

/-- Observable outcome of `show_sleep_graph`: the early-return message on
empty history, a `KeyError` crash, or the three sequences handed to the
plotting collaborator. -/
inductive GraphAction where
  | noData
  | keyError
  | render (days : List Nat) (durations : List ℚ) (levels : List Nat)
deriving DecidableEq

/-- `show_sleep_graph()` (lines 174-195) as a function of the history. -/
def show_sleep_graph (h : List HistoryEntry) : GraphAction :=
  if h = [] then .noData
  else
    match lookupLevels h with
    | some levels => .render (h.map (·.day)) (h.map (·.sleep_duration)) levels
    | none => .keyError

/-! ## Main loop (lines 200-216) -/

/-- Result of one iteration of the `while True` menu loop: either the loop
continues with the given history, or `break` was reached. -/
inductive LoopStep where
  | next (h : List HistoryEntry)
  | exitLoop (h : List HistoryEntry)
deriving DecidableEq

/-- One iteration of the main loop (lines 200-216) given the menu `choice`
and, for choice `"1"`, the duration and predicted label `entry` that the
completed `predict()` call would append. -/
def loopIter (h : List HistoryEntry) (choice : String) (entry : ℚ × String) :
    LoopStep :=
  if choice = "1" then .next (predictAppend h entry.1 entry.2)
  else if choice = "2" then .next h
  else if choice = "3" then .exitLoop h
  else .next h

/-! ## Decimal rendering (used to quantify over `HH:MM` inputs) -/

/-- Decimal digits of `n`. -/
def natChars (n : Nat) : List Char :=
  Nat.toDigits 10 n

/-- `n` rendered as exactly two decimal digits (`%02d`), for `n < 100`. -/
def twoDigitChars (n : Nat) : List Char :=
  if n < 10 then '0' :: natChars n else natChars n

/-! ## Helper lemmas -/

theorem strptimeIP_le (v : List Char) (h : Nat) (hv : strptimeIP v = some h) :
    h ≤ 23 := by
  simp only [strptimeIP] at hv
  split_ifs at hv
  all_goals (obtain rfl := Option.some.inj hv; omega)

theorem strptimeHM_le (v : List Char) (h : Nat) (hv : strptimeHM v = some h) :
    h ≤ 23 := by
  unfold strptimeHM at hv
  split at hv
  · dsimp only at hv
    split_ifs at hv
    all_goals (obtain rfl := Option.some.inj hv; omega)
  · exact absurd hv (by simp)

theorem parse_time_le (s : String) (h : Nat) (hv : parse_time s = some h) :
    h ≤ 23 := by
  simp only [parse_time, parseTimeChars] at hv
  split_ifs at hv with h1 h2
  · exact strptimeIP_le _ _ hv
  · exact strptimeHM_le _ _ hv
  · split at hv
    · split_ifs at hv
      all_goals (obtain rfl := Option.some.inj hv; omega)
    · exact absurd hv (by simp)

theorem runParser_exists {α : Type} (p : String → Option α) (script : List String)
    (a : α) (rest : List String) (h : runParser p script = some (a, rest)) :
    ∃ s, p s = some a := by
  induction script with
  | nil => exact absurd h (by simp [runParser])
  | cons s ss ih =>
    unfold runParser at h
    split at h
    next b hp =>
      injection h with h2
      cases h2
      exact ⟨s, hp⟩
    next hp => exact ih h

theorem caffeineAttempt_le (s : String) (c : Nat) (h : caffeineAttempt s = some c) :
    c ≤ 3 := by
  unfold caffeineAttempt caffeine_map at h
  split_ifs at h
  all_goals (obtain rfl := Option.some.inj h; omega)

theorem moodAttempt_le (s : String) (c : Nat) (h : moodAttempt s = some c) :
    c ≤ 3 := by
  unfold moodAttempt mood_map at h
  split_ifs at h
  all_goals (obtain rfl := Option.some.inj h; omega)

theorem stressAttempt_range (s : String) (n : Int) (h : stressAttempt s = some n) :
    1 ≤ n ∧ n ≤ 10 := by
  unfold stressAttempt at h
  split at h
  · split_ifs at h
    all_goals (obtain rfl := Option.some.inj h; omega)
  · exact absurd h (by simp)

theorem calculate_sleep_duration_range (bed wake : Int) :
    calculate_sleep_duration bed wake = 8 ∨
      (0 < calculate_sleep_duration bed wake ∧
        calculate_sleep_duration bed wake ≤ 14) := by
  simp only [calculate_sleep_duration]
  split_ifs with hd
  · exact Or.inl rfl
  · push_neg at hd
    have h0 : 0 ≤ (wake - bed) % 24 := Int.emod_nonneg _ (by norm_num)
    refine Or.inr ⟨?_, ?_⟩
    · exact_mod_cast show (0 : Int) < (wake - bed) % 24 by omega
    · exact_mod_cast show (wake - bed) % 24 ≤ (14 : Int) by omega

/-! ## Claim theorems -/

/-- Claim C1: `label_sleep` is a total deterministic function into
`{"Good", "Average", "Poor"}`; it returns `"Good"` exactly on the stated
conjunction (with the boundaries `7.0` and `stress = 4` inclusive),
otherwise `"Average"` exactly when `sleep_duration ≥ 6.0` (inclusive), and
otherwise `"Poor"`. -/
theorem claim_C1 (row : FeatureRow) :
    (label_sleep row = "Good" ∨ label_sleep row = "Average" ∨
      label_sleep row = "Poor") ∧
    (label_sleep row = "Good" ↔
      (7 ≤ row.sleep_duration ∧ row.screen_time < 60 ∧ row.stress ≤ 4 ∧
        row.interruptions = 0)) ∧
    (¬ (7 ≤ row.sleep_duration ∧ row.screen_time < 60 ∧ row.stress ≤ 4 ∧
        row.interruptions = 0) →
      (label_sleep row = "Average" ↔ 6 ≤ row.sleep_duration)) ∧
    (¬ (7 ≤ row.sleep_duration ∧ row.screen_time < 60 ∧ row.stress ≤ 4 ∧
        row.interruptions = 0) →
      ¬ 6 ≤ row.sleep_duration → label_sleep row = "Poor") := by
  unfold label_sleep
  split_ifs with hg ha <;>
    refine ⟨by simp, ?_, ?_, ?_⟩ <;> simp_all

/-- Witness for C1 at a concrete row meeting the "Good" predicate. -/
theorem claim_C1_witness :
    label_sleep ⟨8, 22, 6, "None", 30, 20, 3, "Happy", 0⟩ = "Good" :=
  (claim_C1 ⟨8, 22, 6, "None", 30, 20, 3, "Happy", 0⟩).2.1.mpr (by decide)

/-- Claim C4: `calculate_sleep_duration` computes `(wake - bed) % 24`
exactly and returns it (as a float) unless the result is `0` or exceeds
`14`, in which case it returns the fallback `8.0`; in particular
`calc(22, 6) = 8.0`, `calc(22, 22) = 8.0` and `calc(8, 23) = 8.0`. -/
theorem claim_C4 (bed wake : Int) :
    (((wake - bed) % 24 = 0 ∨ 14 < (wake - bed) % 24) →
      calculate_sleep_duration bed wake = 8) ∧
    ((wake - bed) % 24 ≠ 0 ∧ (wake - bed) % 24 ≤ 14 →
      calculate_sleep_duration bed wake = (((wake - bed) % 24 : Int) : ℚ)) ∧
    calculate_sleep_duration 22 6 = 8 ∧
    calculate_sleep_duration 22 22 = 8 ∧
    calculate_sleep_duration 8 23 = 8 := by
  refine ⟨?_, ?_, by decide, by decide, by decide⟩
  · intro h
    simp only [calculate_sleep_duration]
    rw [if_pos h]
  · intro h
    simp only [calculate_sleep_duration]
    rw [if_neg (by rintro (h3 | h4) <;> omega)]

/-- Witness for C4: at `bed = 22`, `wake = 6` the raw result `8` is in
range and is returned exactly. -/
theorem claim_C4_witness : calculate_sleep_duration 22 6 = (((6 - 22 : Int) % 24 : Int) : ℚ) :=
  (claim_C4 22 6).2.1 (by decide)

/-- Claim C5: one attempt of the time parser accepts `"<h> am|pm"`,
`"HH:MM"` and bare hours, returning an hour in 0..23 on the given
examples, rejects `"25"` and `"abc"` (so the loop re-prompts), and every
accepted value is at most 23. -/
theorem claim_C5 :
    parse_time "10 pm" = some 22 ∧ parse_time "22:00" = some 22 ∧
    parse_time "6 am" = some 6 ∧ parse_time "6" = some 6 ∧
    parse_time "25" = none ∧ parse_time "abc" = none ∧
    ∀ s h, parse_time s = some h → h ≤ 23 :=
  ⟨by decide, by decide, by decide, by decide, by decide, by decide,
    fun s h hv => parse_time_le s h hv⟩

/-- Witness for C5's universally quantified bound, at the accepted
input `"6"`. -/
theorem claim_C5_witness : (6 : Nat) ≤ 23 :=
  claim_C5.2.2.2.2.2.2 "6" 6 (by decide)

/-- Claim C10: an accepted `"HH:MM"` input parses to its hour component
alone; the minutes are validated but discarded, for every hour 0..23 and
every minute 0..59 (zero-padded as in the prompt's example `06:30`), and
in particular `"22:30"` parses to `22`. -/
theorem claim_C10 :
    parse_time "22:30" = some 22 ∧
    ∀ (hh : Fin 24) (mm : Fin 60),
      parseTimeChars (natChars hh.val ++ ':' :: twoDigitChars mm.val) =
        some hh.val :=
  ⟨by decide, by decide⟩

/-- Claim C2 (refuted, code bug): the prediction-time hardcoded maps of
lines 105 and 122 disagree with the startup `LabelEncoder` codes used to
encode the training table: the fitted caffeine encoder assigns `"None"`
code 3 (lexicographic order) while `user_input` encodes the user's
`"None"` as 0, and the fitted mood encoder assigns `"Happy"` code 1 while
`user_input` encodes it as 0. -/
theorem claim_C2_refuted :
    leTransform caffeineClasses "None" = 3 ∧
    caffeineAttempt "None" = some 0 ∧
    leTransform moodClasses "Happy" = 1 ∧
    moodAttempt "Happy" = some 0 ∧
    (3 : Nat) ≠ 0 ∧ (1 : Nat) ≠ 0 := by
  decide

/-- Claim C6: for every string in a fitted vocabulary, decoding the code
obtained by encoding it returns the string itself, for each of the three
encoders built at startup. -/
theorem claim_C6 :
    (∀ s ∈ caffeineClasses,
      leInverse caffeineClasses (leTransform caffeineClasses s) = some s) ∧
    (∀ s ∈ moodClasses,
      leInverse moodClasses (leTransform moodClasses s) = some s) ∧
    (∀ s ∈ qualityClasses,
      leInverse qualityClasses (leTransform qualityClasses s) = some s) := by
  decide

/-- Witness for C6 at the fitted caffeine category `"Low"`. -/
theorem claim_C6_witness :
    leInverse caffeineClasses (leTransform caffeineClasses "Low") = some "Low" :=
  claim_C6.1 "Low" (by decide)

/-- Counterexample to C3 as stated: the input script below is accepted in
full by `user_input`, yet the row handed to the classifier has
`exercise = -5` (violating `exercise ≥ 0`) and `interruptions = 7`
(violating `interruptions ∈ {0, 1}`); `safe_int` imposes no range check on
these fields. -/
theorem claim_C3_counterexample :
    (user_input ["22", "6", "none", "-5", "20", "3", "happy", "7"]).map
        (fun r => (r.1.exercise, r.1.interruptions)) = some (-5, 7) ∧
    ¬ (0 : Int) ≤ -5 ∧
    ¬ ((7 : Int) = 0 ∨ (7 : Int) = 1) := by
  decide

/-- Claim C3 as amended: for every accepted input script, the row passed
to the classifier has `bedtime` and `wake_time` in 0..23, `stress` in
1..10, caffeine and mood codes in 0..3, and `sleep_duration` either the
8.0 fallback or in (0, 14]; `exercise`, `screen_time` and `interruptions`
are whatever integers the user typed, with no range check. -/
theorem claim_C3_amended (script : List String) (row : UserRow) (dur : ℚ)
    (rest : List String) (h : user_input script = some (row, dur, rest)) :
    row.bedtime ≤ 23 ∧ row.wake_time ≤ 23 ∧
    1 ≤ row.stress ∧ row.stress ≤ 10 ∧
    row.caffeine ≤ 3 ∧ row.mood ≤ 3 ∧
    (row.sleep_duration = 8 ∨
      (0 < row.sleep_duration ∧ row.sleep_duration ≤ 14)) ∧
    row.sleep_duration = dur := by
  simp only [user_input, Option.bind_eq_some, Option.map_eq_some'] at h
  obtain ⟨bt, hbt, wt, hwt, caf, hcaf, ex, hex, scr, hscr, st, hst, mo, hmo,
    intr, hintr, heq⟩ := h
  obtain ⟨rfl, rfl, rfl⟩ := Prod.mk.injEq .. ▸ heq
  obtain ⟨bs, hbs⟩ := runParser_exists _ _ _ _ hbt
  obtain ⟨ws, hws⟩ := runParser_exists _ _ _ _ hwt
  obtain ⟨cs, hcs⟩ := runParser_exists _ _ _ _ hcaf
  obtain ⟨ts, hts⟩ := runParser_exists _ _ _ _ hst
  obtain ⟨ms, hms⟩ := runParser_exists _ _ _ _ hmo
  obtain ⟨hst1, hst2⟩ := stressAttempt_range _ _ hts
  refine ⟨parse_time_le _ _ hbs, parse_time_le _ _ hws, hst1, hst2,
    caffeineAttempt_le _ _ hcs, moodAttempt_le _ _ hms, ?_, rfl⟩
  exact calculate_sleep_duration_range bt.1 wt.1

/-- Witness for the amended C3 at a fully valid concrete script. -/
theorem claim_C3_witness :
    (1 : Int) ≤ (⟨8, 22, 6, 0, 30, 20, 3, 0, 0⟩ : UserRow).stress :=
  (claim_C3_amended ["22", "6", "none", "30", "20", "3", "happy", "0"]
    ⟨8, 22, 6, 0, 30, 20, 3, 0, 0⟩ 8 [] (by decide)).2.2.1

/-- Days of the history produced by folding predictions from an arbitrary
starting history whose lengths the appended days continue. -/
theorem foldl_predictAppend_days (ps : List (ℚ × String))
    (h : List HistoryEntry) :
    (ps.foldl (fun h p => predictAppend h p.1 p.2) h).map (·.day) =
      h.map (·.day) ++ List.range' (h.length + 1) ps.length := by
  induction ps generalizing h with
  | nil => simp
  | cons p ps ih =>
    rw [List.foldl_cons, ih]
    simp [predictAppend, List.range', List.append_assoc]

/-- Claim C7: the history only grows by appending: each completed
prediction appends exactly one entry whose `day` is the new length, so
after `n` predictions the `day` fields are exactly `1, 2, ..., n` in
order, the previous history is preserved unchanged as a prefix, and the
length grows by exactly one per prediction. -/
theorem claim_C7 (ps : List (ℚ × String)) (p : ℚ × String) :
    (runPredictions ps).map (·.day) = List.range' 1 ps.length ∧
    runPredictions (ps ++ [p]) =
      runPredictions ps ++
        [⟨(runPredictions ps).length + 1, p.1, p.2⟩] ∧
    (runPredictions ps).length = ps.length := by
  have hdays : (runPredictions ps).map (·.day) = List.range' 1 ps.length := by
    have := foldl_predictAppend_days ps []
    simpa [runPredictions] using this
  have hlen : (runPredictions ps).length = ps.length := by
    have := congrArg List.length hdays
    simpa using this
  refine ⟨hdays, ?_, hlen⟩
  simp only [runPredictions, List.foldl_append, List.foldl_cons,
    List.foldl_nil]
  rfl

/-- Claim C8: in the menu loop, choice `"3"` terminates the loop with the
state untouched, and any choice other than `"1"`, `"2"`, `"3"` leaves the
history unchanged and continues the loop (it never terminates on an
unrecognized choice). -/
theorem claim_C8 (h : List HistoryEntry) (e : ℚ × String) (c : String)
    (h1 : c ≠ "1") (h2 : c ≠ "2") (h3 : c ≠ "3") :
    loopIter h "3" e = .exitLoop h ∧ loopIter h c e = .next h := by
  constructor
  · rfl
  · unfold loopIter
    rw [if_neg h1, if_neg h2, if_neg h3]

/-- Witness for C8 at the unrecognized menu choice `"x"`. -/
theorem claim_C8_witness :
    loopIter [] "3" (8, "Good") = .exitLoop [] ∧
      loopIter [] "x" (8, "Good") = .next [] :=
  claim_C8 [] (8, "Good") "x" (by decide) (by decide) (by decide)

/-- The level lookup succeeds with the pointwise translation when every
stored label is one of the three known ones. -/
theorem lookupLevels_eq_map (h : List HistoryEntry)
    (hq : ∀ e ∈ h, e.sleep_quality = "Poor" ∨ e.sleep_quality = "Average" ∨
      e.sleep_quality = "Good") :
    lookupLevels h =
      some (h.map fun e =>
        if e.sleep_quality = "Poor" then 1
        else if e.sleep_quality = "Average" then 2 else 3) := by
  induction h with
  | nil => rfl
  | cons a t ih =>
    have ha := hq a (by simp)
    have ht := ih fun e he => hq e (by simp [he])
    rcases ha with ha | ha | ha <;>
      simp [lookupLevels, ht, quality_map, ha]

/-- Claim C9: on an empty history the graph option reports "no data" and
hands nothing to the plotting collaborator (and menu choice `"2"` leaves
the history unchanged); on a non-empty history (whose labels are the
three known ones, as `predict` guarantees) the collaborator receives the
full day, duration and quality-level sequences, with `"Poor" ↦ 1`,
`"Average" ↦ 2`, `"Good" ↦ 3`. -/
theorem claim_C9 (h : List HistoryEntry) (e : ℚ × String)
    (hne : h ≠ [])
    (hq : ∀ x ∈ h, x.sleep_quality = "Poor" ∨ x.sleep_quality = "Average" ∨
      x.sleep_quality = "Good") :
    show_sleep_graph [] = .noData ∧
    loopIter h "2" e = .next h ∧
    quality_map "Poor" = some 1 ∧ quality_map "Average" = some 2 ∧
    quality_map "Good" = some 3 ∧
    show_sleep_graph h =
      .render (h.map (·.day)) (h.map (·.sleep_duration))
        (h.map fun x =>
          if x.sleep_quality = "Poor" then 1
          else if x.sleep_quality = "Average" then 2 else 3) := by
  refine ⟨rfl, rfl, rfl, rfl, rfl, ?_⟩
  unfold show_sleep_graph
  rw [if_neg hne, lookupLevels_eq_map h hq]

/-- Witness for C9 at the one-entry history `[{day 1, 8.0, "Good"}]`. -/
theorem claim_C9_witness :
    show_sleep_graph [⟨1, 8, "Good"⟩] = .render [1] [8] [3] :=
  (claim_C9 [⟨1, 8, "Good"⟩] (8, "Good") (by decide) (by decide)).2.2.2.2.2

end SleepPredictor
